import Mathlib

/-!
Verification development for a TypeScript MCP (Model Context Protocol) server
consisting of a dispatcher (`index.ts`), a calculator tool (`calculator.ts`),
a weather tool (`weather.ts`) and a file-operations tool (`file-ops.ts`).

The TypeScript code is shallowly embedded: wire arguments are untyped
JSON-like values, JavaScript numbers are modelled as exact rationals
(every computation touched by a claim is exact in IEEE 754 double
precision as well), exceptions are modelled with `Except`, and the
filesystem is an explicit association list threaded through the
file-operations handler.
-/

/-- Untyped JSON-like wire value, as delivered to a handler before any
validation.  `nan` is kept separate from `num` because JavaScript's
`typeof NaN` is `"number"` while `isNaN NaN` is true, and the source
branches on both. -/
inductive JsonValue where
  | str (s : String)
  | num (q : ℚ)
  | nan
  | bool (b : Bool)
  | null
deriving DecidableEq

/-- Argument mapping of a tool call: field name to untyped value.
JavaScript objects have unique keys; lookup takes the first binding. -/
abbrev Args : Type := List (String × JsonValue)

/-- Look up a field of the argument mapping (JS `input.field`;
`none` models `undefined`). -/
def lookupArg : Args → String → Option JsonValue
  | [], _ => none
  | (k', v) :: rest, k => if k' = k then some v else lookupArg rest k

/-- JavaScript falsiness of a value: `""`, `0`, `NaN`, `false`, `null`
are falsy, everything else truthy. -/
def JsonValue.falsy : JsonValue → Bool
  | .str s => decide (s = "")
  | .num q => decide (q = 0)
  | .nan => true
  | .bool b => !b
  | .null => true

/-- JavaScript truthiness of a possibly-absent value (`undefined` is falsy). -/
def truthyOpt (v : Option JsonValue) : Bool :=
  match v with
  | some x => !x.falsy
  | none => false

/-- JavaScript `typeof v === "string"` for a possibly-absent value. -/
def isStrOpt (v : Option JsonValue) : Bool :=
  match v with
  | some (.str _) => true
  | _ => false

/-- JavaScript `typeof v === "number" && !isNaN(v)` for a possibly-absent
value: present, a number, and not `NaN`. -/
def isValidNumber (v : Option JsonValue) : Bool :=
  match v with
  | some (.num _) => true
  | _ => false

/-- JavaScript `Array.prototype.includes` over a string array, which uses
strict equality: only a string value can be a member. -/
def strIncludes (l : List String) (v : Option JsonValue) : Bool :=
  match v with
  | some (.str s) => decide (s ∈ l)
  | _ => false

/-- Underlying string of a value; validation always guarantees the `str`
case wherever this is used. -/
def strOf (v : Option JsonValue) : String :=
  match v with
  | some (.str s) => s
  | _ => ""

/-- Underlying rational of a numeric value; validation always guarantees
the `num` case wherever this is used. -/
def ratOf (v : Option JsonValue) : ℚ :=
  match v with
  | some (.num q) => q
  | _ => 0

/-- Rendering of a rational as JavaScript renders a number in a template
string.  Integers print without a denominator; the rendering of
non-integer rationals diverges from IEEE printing but is never reached
by a claim. -/
def numToString (q : ℚ) : String :=
  if q.den = 1 then toString q.num else toString q

/-- JavaScript template-string interpolation of an untyped value. -/
def JsonValue.render : JsonValue → String
  | .str s => s
  | .num q => numToString q
  | .nan => "NaN"
  | .bool b => if b then "true" else "false"
  | .null => "null"

/-- JavaScript `Math.pow` restricted to the rational model: defined for
integer exponents (the only exponents a rational model can represent
exactly); no claim exercises this operation. -/
def jsPow (a b : ℚ) : ℚ :=
  if b.den = 1 then a ^ b.num else 0

/-- Valid calculator operations, from `calculator.ts`. -/
def CalculatorTool.validOperations : List String :=
  ["add", "subtract", "multiply", "divide", "power", "sqrt"]

/-- Validation of calculator input, one check per `throw` site of
`CalculatorTool.validateInput`, in source order:
falsiness of `operation`, enum membership of `operation`, numeric check
on `a`, presence-and-numeric check on `b` for non-`sqrt` operations,
division by zero, negative radicand. -/
def CalculatorTool.validateInput (args : Args) : Except String Unit :=
  let op := lookupArg args "operation"
  if !truthyOpt op then
    .error "Operation is required"
  else if !strIncludes CalculatorTool.validOperations op then
    .error ("Invalid operation. Must be one of: " ++
      String.intercalate ", " CalculatorTool.validOperations)
  else if !isValidNumber (lookupArg args "a") then
    .error "Parameter \"a\" must be a valid number"
  else if op ≠ some (.str "sqrt") ∧ !isValidNumber (lookupArg args "b") then
    .error ("Parameter \"b\" is required for " ++
      ((op.getD .null).render) ++ " operation")
  else if op = some (.str "divide") ∧ lookupArg args "b" = some (.num 0) then
    .error "Division by zero is not allowed"
  else if op = some (.str "sqrt") ∧ ratOf (lookupArg args "a") < 0 then
    .error "Cannot calculate square root of negative number"
  else
    .ok ()

/-- Output of the calculator (`CalculatorOutput` in `calculator.ts`).
`inputsA` is numeric because validation guarantees `a` is a number;
`inputsB` keeps the raw value, which the source includes exactly when
`b` is not `undefined`. -/
structure CalculatorOutput where
  result : ℚ
  operation : String
  inputsA : ℚ
  inputsB : Option JsonValue
deriving DecidableEq

/-- The calculator computation `CalculatorTool.calculate`: validate, then
switch on the operation.  `Math.sqrt` is modelled by `Rat.sqrt`, exact on
perfect squares (the only inputs a claim exercises).  The `default`
branch of the source's switch throws `Invalid operation`; it is
unreachable after validation but kept. -/
def CalculatorTool.calculate (args : Args) : Except String CalculatorOutput :=
  match CalculatorTool.validateInput args with
  | .error e => .error e
  | .ok _ =>
    let a := ratOf (lookupArg args "a")
    let b := ratOf (lookupArg args "b")
    let opStr := strOf (lookupArg args "operation")
    let res : Except String ℚ :=
      if opStr = "add" then .ok (a + b)
      else if opStr = "subtract" then .ok (a - b)
      else if opStr = "multiply" then .ok (a * b)
      else if opStr = "divide" then .ok (a / b)
      else if opStr = "power" then .ok (jsPow a b)
      else if opStr = "sqrt" then .ok (Rat.sqrt a)
      else .error "Invalid operation"
    match res with
    | .error e => .error e
    | .ok r =>
      .ok { result := r, operation := opStr, inputsA := a,
            inputsB := lookupArg args "b" }

/-- JavaScript `String.prototype.trim`, implemented structurally over the
character list so that it evaluates by reduction (core `String.trim` is
defined by well-founded recursion over byte positions and does not
reduce definitionally). -/
def jsTrim (s : String) : String :=
  ⟨((s.data.dropWhile Char.isWhitespace).reverse.dropWhile
    Char.isWhitespace).reverse⟩

/-- JavaScript `s.startsWith(pre)`, implemented structurally over the
character lists (core `String.startsWith` compares byte positions and
does not reduce definitionally). -/
def strStartsWith (s pre : String) : Bool :=
  pre.data.isPrefixOf s.data

/-- Weather conditions table from `weather.ts`. -/
def WeatherTool.conditions : List String :=
  ["Sunny", "Partly Cloudy", "Cloudy", "Rainy", "Stormy", "Snowy", "Foggy",
   "Windy"]

/-- Days table from `weather.ts`. -/
def WeatherTool.days : List String :=
  ["Monday", "Tuesday", "Wednesday", "Thursday", "Friday", "Saturday",
   "Sunday"]

/-- One forecast entry of the weather output. -/
structure ForecastEntry where
  day : String
  high : ℤ
  low : ℤ
  condition : String
deriving DecidableEq

/-- Output of the weather tool (`WeatherOutput` in `weather.ts`).
Temperatures are integers because the source rounds every one with
`Math.round`. -/
structure WeatherOutput where
  location : String
  temperature : ℤ
  units : String
  condition : String
  humidity : ℤ
  windSpeed : ℤ
  forecast : List ForecastEntry
  timestamp : String
deriving DecidableEq

/-- Validation of weather input, one check per `throw` site of
`WeatherTool.validateInput`, in source order: falsiness or non-string
`location`, all-whitespace `location`, bad `units` enum (only checked
when `units` is truthy). -/
def WeatherTool.validateInput (args : Args) : Except String Unit :=
  let loc := lookupArg args "location"
  if !truthyOpt loc ∨ !isStrOpt loc then
    .error "Location is required and must be a string"
  else if jsTrim (strOf loc) = "" then
    .error "Location cannot be empty"
  else if truthyOpt (lookupArg args "units") ∧
      !strIncludes ["celsius", "fahrenheit"] (lookupArg args "units") then
    .error "Units must be either \"celsius\" or \"fahrenheit\""
  else
    .ok ()

/-- JavaScript `a || b` on a possibly-absent value with a default. -/
def jsOrDefault (v : Option JsonValue) (d : JsonValue) : JsonValue :=
  match v with
  | some x => if x.falsy then d else x
  | none => d

/-- JavaScript `Math.round`: round half toward positive infinity. -/
def jsRound (q : ℚ) : ℤ := ⌊q + 1 / 2⌋

/-- Index `Math.floor(r * len)` used to pick a pseudo-random list
element; out-of-range random values (never produced by `Math.random`)
fall back to the list head via `getD`. -/
def randIndex (r : ℚ) (len : ℕ) : ℕ := (⌊r * (len : ℚ)⌋).toNat

/-- Simulated weather data from `WeatherTool.generateWeatherData`.
`Math.random()` is modelled as a stream `rng : ℕ → ℚ` consumed in source
evaluation order (temperature, condition, humidity, wind speed, then
high/low/condition per forecast day); `new Date().toISOString()` is the
parameter `now`.  The `units` parameter keeps the raw value the source
receives; `isCelsius` is the strict comparison with `"celsius"`. -/
def WeatherTool.generateWeatherData (location : String) (units : JsonValue)
    (rng : ℕ → ℚ) (now : String) : WeatherOutput :=
  let isCelsius := units = .str "celsius"
  let baseTemp : ℚ := if isCelsius then 20 else 68
  let tempVariation : ℚ := if isCelsius then 10 else 18
  let temperature := jsRound (baseTemp + (rng 0 * tempVariation - tempVariation / 2))
  let condition := WeatherTool.conditions.getD (randIndex (rng 1) 8) "Sunny"
  let humidity := jsRound (30 + rng 2 * 50)
  let windSpeed := jsRound (5 + rng 3 * 20)
  let forecast := WeatherTool.days.enum.map (fun p =>
    { day := p.2,
      high := jsRound ((temperature : ℚ) + rng (4 + 3 * p.1) * 5),
      low := jsRound ((temperature : ℚ) - rng (5 + 3 * p.1) * 5),
      condition :=
        WeatherTool.conditions.getD (randIndex (rng (6 + 3 * p.1)) 8) "Sunny" })
  { location := location,
    temperature := temperature,
    units := if isCelsius then "Celsius" else "Fahrenheit",
    condition := condition,
    humidity := humidity,
    windSpeed := windSpeed,
    forecast := forecast,
    timestamp := now }

/-- The weather handler operation `WeatherTool.getWeather`: validate,
default the units with `input.units || 'celsius'`, generate data. -/
def WeatherTool.getWeather (args : Args) (rng : ℕ → ℚ) (now : String) :
    Except String WeatherOutput :=
  match WeatherTool.validateInput args with
  | .error e => .error e
  | .ok _ =>
    let units := jsOrDefault (lookupArg args "units") (.str "celsius")
    .ok (WeatherTool.generateWeatherData (strOf (lookupArg args "location"))
      units rng now)

/-- Splitting of a character list on `/`, used by the path normaliser;
structural so that it evaluates by reduction. -/
def splitSlashAux : List Char → List Char → List String
  | [], acc => [String.mk acc.reverse]
  | c :: cs, acc =>
    if c = '/' then String.mk acc.reverse :: splitSlashAux cs []
    else splitSlashAux cs (c :: acc)

/-- Path split on `/` separators, as `path.split('/')` would produce. -/
def splitSlash (s : String) : List String :=
  splitSlashAux s.data []

/-- One step of POSIX path normalisation: empty and `.` segments vanish,
`..` pops the last kept segment (at the root it vanishes), anything else
is kept. -/
def normStep (acc : List String) (seg : String) : List String :=
  if seg = "" ∨ seg = "." then acc
  else if seg = ".." then acc.dropLast
  else acc ++ [seg]

/-- Node's `path.resolve(p)` against a current working directory: an
absolute `p` is normalised as is, a relative `p` is joined to `cwd`
first.  `cwd` is assumed absolute, as `process.cwd()` always is. -/
def resolvePath (cwd p : String) : String :=
  let full := if strStartsWith p "/" then p else cwd ++ "/" ++ p
  let segs := (splitSlash full).foldl normStep []
  "/" ++ String.intercalate "/" segs

/-- Lookup in a path-keyed association list (first binding wins). -/
def lookupStr : List (String × String) → String → Option String
  | [], _ => none
  | (k', v) :: rest, k => if k' = k then some v else lookupStr rest k

/-- Filesystem state threaded through the file-operations handler:
`files` maps an absolute path to its content.  `readFaults` models the
environment's non-`ENOENT` read failures (for example `EACCES`), which
`file-ops.ts` distinguishes explicitly from a missing file: a path
listed here makes `fs.readFile` fail with the recorded message. -/
structure FS where
  files : List (String × String)
  readFaults : List (String × String)
deriving DecidableEq

/-- Allow-list of the file-operations tool: the default
`['/tmp', process.cwd()]` from the `FileOpsTool` constructor. -/
def FileOpsTool.allowedDirectories (cwd : String) : List String :=
  ["/tmp", cwd]

/-- Path validation from `FileOpsTool.validatePath`: resolve the path and
accept it exactly when the resolved path has some resolved allow-listed
directory as a plain string prefix (`resolvedPath.startsWith resolvedDir`);
on success the resolved path is returned, otherwise the access-denied
error is thrown. -/
def FileOpsTool.validatePath (cwd filePath : String) : Except String String :=
  let resolvedPath := resolvePath cwd filePath
  let isAllowed := (FileOpsTool.allowedDirectories cwd).any fun dir =>
    strStartsWith resolvedPath (resolvePath cwd dir)
  if isAllowed then
    .ok resolvedPath
  else
    .error ("Access denied. Path must be within allowed directories: " ++
      String.intercalate ", " (FileOpsTool.allowedDirectories cwd))

/-- Valid file operations, from `file-ops.ts`. -/
def FileOpsTool.validOperations : List String :=
  ["read", "write", "list", "delete", "exists"]

/-- Validation of file-operations input, one check per `throw` site of
`FileOpsTool.validateInput`, in source order: falsiness of `operation`,
enum membership of `operation`, falsy-or-non-string `path`, missing
`content` on a `write`. -/
def FileOpsTool.validateInput (args : Args) : Except String Unit :=
  let op := lookupArg args "operation"
  if !truthyOpt op then
    .error "Operation is required"
  else if !strIncludes FileOpsTool.validOperations op then
    .error ("Invalid operation. Must be one of: " ++
      String.intercalate ", " FileOpsTool.validOperations)
  else if !truthyOpt (lookupArg args "path") ∨
      !isStrOpt (lookupArg args "path") then
    .error "Path is required and must be a string"
  else if op = some (.str "write") ∧ lookupArg args "content" = none then
    .error "Content is required for write operation"
  else
    .ok ()

/-- The `FileOpsTool.readFile` wrapper: a recorded fault surfaces as the
generic failure message, a missing file as the classified `File not
found` message (the source's `ENOENT` branch), otherwise the content is
returned. -/
def FileOpsTool.readFile (fs : FS) (filePath : String) : Except String String :=
  match lookupStr fs.readFaults filePath with
  | some msg => .error ("Failed to read file: " ++ msg)
  | none =>
    match lookupStr fs.files filePath with
    | some content => .ok content
    | none => .error ("File not found: " ++ filePath)

/-- The `FileOpsTool.writeFile` wrapper: stores the content under the
path, replacing any previous binding.  Intermediate directories need no
modelling because directories are implicit in the flat path map
(`fs.mkdir` with `recursive: true` never fails on them). -/
def FileOpsTool.writeFile (fs : FS) (filePath content : String) : FS :=
  { fs with files := (filePath, content) ::
      fs.files.filter (fun e => decide (e.1 ≠ filePath)) }

/-- The `FileOpsTool.deleteFile` wrapper: removes the file, or fails with
the classified `File not found` message when it is absent (the source's
`ENOENT` branch of `fs.unlink`). -/
def FileOpsTool.deleteFile (fs : FS) (filePath : String) : Except String FS :=
  if (lookupStr fs.files filePath).isSome then
    .ok { fs with files := fs.files.filter (fun e => decide (e.1 ≠ filePath)) }
  else
    .error ("File not found: " ++ filePath)

/-- The `FileOpsTool.fileExists` wrapper: `fs.access` succeeds exactly
when the path is stored; every failure is swallowed into `false`. -/
def FileOpsTool.fileExists (fs : FS) (filePath : String) : Bool :=
  (lookupStr fs.files filePath).isSome

/-- Entry rendering of `FileOpsTool.listDirectory`: the immediate
children of the directory among the stored files, a child with further
path segments below it rendered as `[DIR]`, a direct file as `[FILE]`.
A directory exists in the flat file map exactly when some stored file
lies beneath it (empty directories are not modelled); a directory with
no stored file beneath it therefore surfaces the `ENOENT` branch,
`Directory not found`. -/
def FileOpsTool.listDirectory (fs : FS) (dirPath : String) :
    Except String (List String) :=
  let pre := if dirPath = "/" then "/" else dirPath ++ "/"
  let entries := (fs.files.map (fun e =>
    if strStartsWith e.1 pre then
      match splitSlash (⟨e.1.data.drop pre.data.length⟩ : String) with
      | [name] => some ("[FILE] " ++ name)
      | name :: _ => some ("[DIR] " ++ name)
      | [] => none
    else none)).reduceOption.dedup
  if entries.isEmpty then .error ("Directory not found: " ++ dirPath)
  else .ok entries

/-- Data payload of a file operation: a string (read content, existence
text) or a list of directory entries. -/
inductive FileData where
  | str (s : String)
  | list (l : List String)
deriving DecidableEq

/-- Output record of the file-operations tool (`FileOpsOutput` in
`file-ops.ts`). -/
structure FileOpsOutput where
  success : Bool
  operation : String
  path : String
  data : Option FileData
  message : Option String
deriving DecidableEq

/-- The handler operation `FileOpsTool.performOperation`: validate the
input, validate the path (both throw on violation), then run the
operation inside a `try` whose `catch` records the failure in the
output record (`success := false`, `message := the error`) instead of
rethrowing.  Returns the output together with the possibly-updated
filesystem.  A `write` whose validated `content` is not a string is the
runtime `fs.writeFile` type failure, caught by the same `catch`. -/
def FileOpsTool.performOperation (cwd : String) (args : Args) (fs : FS) :
    Except String (FileOpsOutput × FS) :=
  match FileOpsTool.validateInput args with
  | .error e => .error e
  | .ok _ =>
    match FileOpsTool.validatePath cwd (strOf (lookupArg args "path")) with
    | .error e => .error e
    | .ok validatedPath =>
      let opStr := strOf (lookupArg args "operation")
      let base : FileOpsOutput :=
        { success := false, operation := opStr, path := validatedPath,
          data := none, message := none }
      if opStr = "read" then
        match FileOpsTool.readFile fs validatedPath with
        | .ok content =>
          .ok ({ base with
                 success := true,
                 data := some (.str content),
                 message := some "File read successfully" }, fs)
        | .error m => .ok ({ base with message := some m }, fs)
      else if opStr = "write" then
        match lookupArg args "content" with
        | some (.str c) =>
          .ok ({ base with
                 success := true,
                 message := some "File written successfully" },
               FileOpsTool.writeFile fs validatedPath c)
        | _ =>
          .ok ({ base with
                 message := some "Failed to write file: content is not a string" },
               fs)
      else if opStr = "list" then
        match FileOpsTool.listDirectory fs validatedPath with
        | .ok entries =>
          .ok ({ base with
                 success := true,
                 data := some (.list entries),
                 message := some ("Found " ++ toString entries.length ++
                   " entries") }, fs)
        | .error m => .ok ({ base with message := some m }, fs)
      else if opStr = "delete" then
        match FileOpsTool.deleteFile fs validatedPath with
        | .ok fs' =>
          .ok ({ base with
                 success := true,
                 message := some "File deleted successfully" }, fs')
        | .error m => .ok ({ base with message := some m }, fs)
      else
        let e := FileOpsTool.fileExists fs validatedPath
        let t := if e then "File exists" else "File does not exist"
        .ok ({ base with
               success := true,
               data := some (.str t),
               message := some t }, fs)

/-- Protocol error codes used by the server (the closed subset of the
SDK's `ErrorCode` that `index.ts` uses). -/
inductive ErrorCode where
  | MethodNotFound
  | InvalidParams
  | InternalError
deriving DecidableEq

/-- An `McpError` as thrown by the dispatcher and handlers. -/
structure McpError where
  code : ErrorCode
  message : String
deriving DecidableEq

/-- A JavaScript exception as seen by the dispatcher's `catch`: either an
`McpError` or any other error carrying a message. -/
inductive JsError where
  | mcp (e : McpError)
  | plain (message : String)
deriving DecidableEq

/-- Structured payload of a successful tool call, the value the handler
serialises into the response's text content. -/
inductive ToolPayload where
  | calc (o : CalculatorOutput)
  | weather (o : WeatherOutput)
  | fileOps (o : FileOpsOutput)
deriving DecidableEq

/-- Result of one `callTool` dispatch: the uniform response envelope.
A `Failure` is an `McpError` reaching the transport boundary. -/
inductive ToolCallResult where
  | Success (payload : ToolPayload)
  | Failure (kind : ErrorCode) (message : String)
deriving DecidableEq

/-- Ambient state of one dispatch: the working directory the
`FileOpsTool` constructor captured, the filesystem, the `Math.random`
stream and the current ISO timestamp. -/
structure Env where
  cwd : String
  fs : FS
  rng : ℕ → ℚ
  now : String

/-- The `handleCalculator` wrapper of `index.ts`: any error from
`calculate` is rethrown as `McpError(InvalidParams, 'Calculator error: …')`. -/
def MCPServer.handleCalculator (args : Args) : Except JsError ToolPayload :=
  match CalculatorTool.calculate args with
  | .ok o => .ok (.calc o)
  | .error e => .error (.mcp ⟨.InvalidParams, "Calculator error: " ++ e⟩)

/-- The `handleWeather` wrapper of `index.ts`: any error from
`getWeather` is rethrown as `McpError(InvalidParams, 'Weather error: …')`. -/
def MCPServer.handleWeather (args : Args) (rng : ℕ → ℚ) (now : String) :
    Except JsError ToolPayload :=
  match WeatherTool.getWeather args rng now with
  | .ok o => .ok (.weather o)
  | .error e => .error (.mcp ⟨.InvalidParams, "Weather error: " ++ e⟩)

/-- The `handleFileOps` wrapper of `index.ts`: any error thrown by
`performOperation` is rethrown as
`McpError(InvalidParams, 'File operations error: …')`. -/
def MCPServer.handleFileOps (cwd : String) (args : Args) (fs : FS) :
    Except JsError ToolPayload × FS :=
  match FileOpsTool.performOperation cwd args fs with
  | .ok (o, fs') => (.ok (.fileOps o), fs')
  | .error e =>
    (.error (.mcp ⟨.InvalidParams, "File operations error: " ++ e⟩), fs)

/-- The `catch` of the dispatcher's call-tool request handler in
`index.ts`: an `McpError` is rethrown unchanged and becomes the
protocol failure, any other exception is wrapped as
`McpError(InternalError, 'Tool execution failed: …')`.  No exception
escapes: every outcome is a `ToolCallResult`. -/
def MCPServer.dispatchCatch (r : Except JsError ToolPayload) : ToolCallResult :=
  match r with
  | .ok p => .Success p
  | .error (.mcp e) => .Failure e.code e.message
  | .error (.plain m) => .Failure .InternalError ("Tool execution failed: " ++ m)

/-- The call-tool request handler of `index.ts`: switch on the tool name
(unknown names throw `McpError(MethodNotFound, 'Unknown tool: …')`),
run the matching handler, and classify every thrown error through the
`catch`.  Returns the response envelope and the filesystem after the
call. -/
def MCPServer.callTool (name : String) (args : Args) (env : Env) :
    ToolCallResult × FS :=
  let inner : Except JsError ToolPayload × FS :=
    if name = "calculator" then (MCPServer.handleCalculator args, env.fs)
    else if name = "weather" then
      (MCPServer.handleWeather args env.rng env.now, env.fs)
    else if name = "file_operations" then
      MCPServer.handleFileOps env.cwd args env.fs
    else
      (.error (.mcp ⟨.MethodNotFound, "Unknown tool: " ++ name⟩), env.fs)
  (MCPServer.dispatchCatch inner.1, inner.2)

/-- Declared property of an input schema field. -/
structure PropertySchema where
  type : String
  enum : Option (List String)
  description : String
  default : Option String
deriving DecidableEq

/-- Input schema of a tool definition: declared properties in declaration
order, and the required field names. -/
structure InputSchema where
  type : String
  properties : List (String × PropertySchema)
  required : List String
deriving DecidableEq

/-- Static descriptor of one tool. -/
structure ToolDefinition where
  name : String
  description : String
  inputSchema : InputSchema
deriving DecidableEq

/-- The calculator's tool definition, from
`CalculatorTool.getToolDefinition`. -/
def CalculatorTool.getToolDefinition : ToolDefinition :=
  { name := "calculator",
    description := "Performs mathematical operations including add, subtract, multiply, divide, power, and square root",
    inputSchema :=
    { type := "object",
      properties :=
        [("operation",
          { type := "string",
            enum := some CalculatorTool.validOperations,
            description := "The mathematical operation to perform",
            default := none }),
         ("a",
          { type := "number", enum := none,
            description := "The first operand", default := none }),
         ("b",
          { type := "number", enum := none,
            description := "The second operand (not required for sqrt)",
            default := none })],
      required := ["operation", "a"] } }

/-- The weather tool definition, from `WeatherTool.getToolDefinition`. -/
def WeatherTool.getToolDefinition : ToolDefinition :=
  { name := "weather",
    description := "Retrieves current weather information and forecast for a specified location",
    inputSchema :=
    { type := "object",
      properties :=
        [("location",
          { type := "string", enum := none,
            description := "The location to get weather for (e.g., \"San Francisco\", \"New York\", \"London\")",
            default := none }),
         ("units",
          { type := "string",
            enum := some ["celsius", "fahrenheit"],
            description := "Temperature units (default: celsius)",
            default := some "celsius" })],
      required := ["location"] } }

/-- The file-operations tool definition, from
`FileOpsTool.getToolDefinition`. -/
def FileOpsTool.getToolDefinition : ToolDefinition :=
  { name := "file_operations",
    description := "Performs safe file system operations including read, write, list, delete, and exists checks",
    inputSchema :=
    { type := "object",
      properties :=
        [("operation",
          { type := "string",
            enum := some FileOpsTool.validOperations,
            description := "The file operation to perform",
            default := none }),
         ("path",
          { type := "string", enum := none,
            description := "The file or directory path", default := none }),
         ("content",
          { type := "string", enum := none,
            description := "Content to write (required for write operation)",
            default := none })],
      required := ["operation", "path"] } }

/-- The list-tools request handler of `index.ts`: the three tool
definitions, in the order the array literal registers them. -/
def MCPServer.listTools : List ToolDefinition :=
  [CalculatorTool.getToolDefinition,
   WeatherTool.getToolDefinition,
   FileOpsTool.getToolDefinition]

/-- Directory containment: `p` lies under directory `base` when it is the
directory itself or a path strictly below it (a `/`-separated
descendant).  This is the spec's notion of a path being inside an
allow-listed base directory, against which `validatePath`'s plain
string-prefix test is compared. -/
def isUnderDir (base p : String) : Bool :=
  p == base || strStartsWith p (base ++ "/")

/-- Claim C1: calling a tool whose name is not `calculator`, `weather` or
`file_operations` always returns `Failure` with kind `MethodNotFound`
and message `Unknown tool: <name>`, whatever the arguments; the call
still returns normally and leaves the filesystem untouched, so the
failure is fatal only for this call, not for the process. -/
theorem callTool_unknown_method_not_found (name : String) (args : Args)
    (env : Env) (h1 : name ≠ "calculator") (h2 : name ≠ "weather")
    (h3 : name ≠ "file_operations") :
    MCPServer.callTool name args env =
      (.Failure .MethodNotFound ("Unknown tool: " ++ name), env.fs) := by
  unfold MCPServer.callTool
  simp [h1, h2, h3, MCPServer.dispatchCatch]

/-- Witness for C1: `callTool("nonexistent", {})` yields the
`MethodNotFound` failure. -/
theorem callTool_unknown_method_not_found_witness :
    MCPServer.callTool "nonexistent" []
        ⟨"/app", ⟨[], []⟩, fun _ => 0, "t"⟩ =
      (.Failure .MethodNotFound "Unknown tool: nonexistent",
       (⟨[], []⟩ : FS)) :=
  callTool_unknown_method_not_found "nonexistent" [] _
    (by decide) (by decide) (by decide)

/-- Claim C6: the five documented calculator cases — add 15 7 succeeds
with result 22, multiply 8 9 with 72, sqrt 144 with 12, divide 10 0
fails with `InvalidParams`, sqrt (-1) fails with `InvalidParams`. -/
theorem calculator_concrete_cases (env : Env) :
    (∃ o, (MCPServer.callTool "calculator"
        [("operation", .str "add"), ("a", .num 15), ("b", .num 7)] env).1 =
        .Success (.calc o) ∧ o.result = 22) ∧
    (∃ o, (MCPServer.callTool "calculator"
        [("operation", .str "multiply"), ("a", .num 8), ("b", .num 9)] env).1 =
        .Success (.calc o) ∧ o.result = 72) ∧
    (∃ o, (MCPServer.callTool "calculator"
        [("operation", .str "sqrt"), ("a", .num 144)] env).1 =
        .Success (.calc o) ∧ o.result = 12) ∧
    (MCPServer.callTool "calculator"
        [("operation", .str "divide"), ("a", .num 10), ("b", .num 0)] env).1 =
      .Failure .InvalidParams
        "Calculator error: Division by zero is not allowed" ∧
    (MCPServer.callTool "calculator"
        [("operation", .str "sqrt"), ("a", .num (-1))] env).1 =
      .Failure .InvalidParams
        "Calculator error: Cannot calculate square root of negative number" := by
  refine ⟨⟨{ result := 15 + 7, operation := "add", inputsA := 15,
             inputsB := some (.num 7) }, rfl, by norm_num⟩,
          ⟨{ result := 8 * 9, operation := "multiply", inputsA := 8,
             inputsB := some (.num 9) }, rfl, by norm_num⟩,
          ⟨{ result := Rat.sqrt 144, operation := "sqrt", inputsA := 144,
             inputsB := none }, rfl, by norm_num [Rat.sqrt, Nat.sqrt]⟩,
          rfl, rfl⟩

/-- Claim C9: `listTools` returns exactly the three registered
definitions — calculator, weather, file_operations — in registration
order, with pairwise-distinct names; being a constant of the server it
is identical across calls. -/
theorem listTools_exact_registered :
    MCPServer.listTools =
      [CalculatorTool.getToolDefinition, WeatherTool.getToolDefinition,
       FileOpsTool.getToolDefinition] ∧
    MCPServer.listTools.map ToolDefinition.name =
      ["calculator", "weather", "file_operations"] ∧
    (MCPServer.listTools.map ToolDefinition.name).Nodup := by
  refine ⟨rfl, rfl, by decide⟩

/-- Claim C2 (amended): the dispatcher's `catch` wraps any exception that
is not already an `McpError` as `Failure{InternalError}` with the
`Tool execution failed` message — and no handler failure propagates
past the dispatcher: every call returns a `ToolCallResult`, whose
failure kind for the three registered tools and for unknown names is
always `MethodNotFound` or `InvalidParams`, never `InternalError`,
because each handler catches its own failures and classifies them as
`InvalidParams` itself. -/
theorem dispatcher_failure_classification :
    (∀ m, MCPServer.dispatchCatch (.error (.plain m)) =
      .Failure .InternalError ("Tool execution failed: " ++ m)) ∧
    (∀ name args env k msg,
      (MCPServer.callTool name args env).1 = .Failure k msg →
      k = .MethodNotFound ∨ k = .InvalidParams) := by
  refine ⟨fun m => rfl, ?_⟩
  intro name args env k msg h
  unfold MCPServer.callTool at h
  by_cases h1 : name = "calculator"
  · simp only [h1, if_pos rfl] at h
    unfold MCPServer.handleCalculator at h
    cases hc : CalculatorTool.calculate args <;>
      simp [hc, MCPServer.dispatchCatch] at h
    exact Or.inr h.1.symm
  by_cases h2 : name = "weather"
  · simp only [h1, ite_false, h2, ite_true] at h
    unfold MCPServer.handleWeather at h
    cases hc : WeatherTool.getWeather args env.rng env.now <;>
      simp [hc, MCPServer.dispatchCatch] at h
    exact Or.inr h.1.symm
  by_cases h3 : name = "file_operations"
  · simp only [h1, ite_false, h2, h3, ite_true] at h
    unfold MCPServer.handleFileOps at h
    cases hc : FileOpsTool.performOperation env.cwd args env.fs with
    | ok pr => simp [hc, MCPServer.dispatchCatch] at h
    | error e =>
      simp [hc, MCPServer.dispatchCatch] at h
      exact Or.inr h.1.symm
  · simp only [h1, ite_false, h2, h3, MCPServer.dispatchCatch] at h
    simp [MCPServer.dispatchCatch] at h
    exact Or.inl h.1.symm

/-- Witness for C2 (amended): a concrete failing call — the unknown tool
name — satisfies the hypothesis and is classified with one of the two
expected kinds. -/
theorem dispatcher_failure_classification_witness :
    (MCPServer.callTool "nonexistent" []
        ⟨"/app", ⟨[], []⟩, fun _ => 0, "t"⟩).1 =
      .Failure .MethodNotFound "Unknown tool: nonexistent" ∧
    (ErrorCode.MethodNotFound = ErrorCode.MethodNotFound ∨
     ErrorCode.MethodNotFound = ErrorCode.InvalidParams) :=
  ⟨rfl, dispatcher_failure_classification.2 "nonexistent" []
    ⟨"/app", ⟨[], []⟩, fun _ => 0, "t"⟩ .MethodNotFound
    "Unknown tool: nonexistent" rfl⟩

/-- Counterexample to claim C2 as stated: an unexpected I/O fault during
a file read (a non-`ENOENT` failure, here `EACCES`) does not surface as
`Failure{InternalError}`; `performOperation`'s internal `catch` records
it in the output record and the call returns a protocol-level `Success`
whose payload has `success := false`. -/
theorem unexpected_io_fault_not_internal_error :
    (MCPServer.callTool "file_operations"
        [("operation", .str "read"), ("path", .str "/tmp/data.txt")]
        ⟨"/app", ⟨[("/tmp/data.txt", "hello")],
          [("/tmp/data.txt", "EACCES: permission denied")]⟩,
         fun _ => 0, "t"⟩).1 =
      .Success (.fileOps
        { success := false, operation := "read", path := "/tmp/data.txt",
          data := none,
          message := some "Failed to read file: EACCES: permission denied" }) := by
  rfl

/-- Claim C3: a `read` or `delete` on a path accepted by the allow-list
check but absent from the filesystem produces the distinct classified
failure record — `success := false` with the `File not found` message of
the `ENOENT` branch — not a success record and not the generic
`Failed to read file` / `Failed to delete file` wrap. -/
theorem missing_file_read_delete_classified (cwd p : String) (fs : FS)
    (opName : String) (hop : opName = "read" ∨ opName = "delete")
    (hp : p ≠ "")
    (hallow : ((FileOpsTool.allowedDirectories cwd).any fun dir =>
      strStartsWith (resolvePath cwd p) (resolvePath cwd dir)) = true)
    (hmiss : lookupStr fs.files (resolvePath cwd p) = none)
    (hfault : lookupStr fs.readFaults (resolvePath cwd p) = none) :
    FileOpsTool.performOperation cwd
        [("operation", .str opName), ("path", .str p)] fs =
      .ok ({ success := false, operation := opName,
             path := resolvePath cwd p, data := none,
             message := some ("File not found: " ++ resolvePath cwd p) },
           fs) := by
  rcases hop with h | h <;> subst h <;>
    simp [FileOpsTool.performOperation, FileOpsTool.validateInput,
      FileOpsTool.validatePath, FileOpsTool.readFile, FileOpsTool.deleteFile,
      FileOpsTool.validOperations, lookupArg, truthyOpt, JsonValue.falsy,
      isStrOpt, strIncludes, strOf, hallow, hmiss, hfault, hp]

/-- Witness for C3: reading a missing file under `/tmp` yields the
classified `File not found` record. -/
theorem missing_file_read_delete_classified_witness :
    FileOpsTool.performOperation "/app"
        [("operation", .str "read"), ("path", .str "/tmp/nope.txt")]
        ⟨[], []⟩ =
      .ok ({ success := false, operation := "read",
             path := resolvePath "/app" "/tmp/nope.txt", data := none,
             message := some ("File not found: " ++
               resolvePath "/app" "/tmp/nope.txt") },
           (⟨[], []⟩ : FS)) :=
  missing_file_read_delete_classified "/app" "/tmp/nope.txt" ⟨[], []⟩
    "read" (Or.inl rfl) (by decide) (by rfl) rfl rfl

/-- Claim C4 (amended): a `read` whose resolved path does not have any
resolved allow-listed directory as a plain string prefix is rejected
with `Failure{InvalidParams}` carrying the access-denied message,
whatever the filesystem contents (so regardless of whether the path
exists), and the filesystem is left unchanged. -/
theorem read_outside_prefix_invalid_params (p : String) (env : Env)
    (hout : ((FileOpsTool.allowedDirectories env.cwd).any fun dir =>
      strStartsWith (resolvePath env.cwd p) (resolvePath env.cwd dir)) =
      false)
    (hp : p ≠ "") :
    MCPServer.callTool "file_operations"
        [("operation", .str "read"), ("path", .str p)] env =
      (.Failure .InvalidParams
        ("File operations error: " ++
          "Access denied. Path must be within allowed directories: " ++
          String.intercalate ", " (FileOpsTool.allowedDirectories env.cwd)),
       env.fs) := by
  unfold MCPServer.callTool MCPServer.handleFileOps
  simp [FileOpsTool.performOperation, FileOpsTool.validateInput,
    FileOpsTool.validatePath, FileOpsTool.validOperations, lookupArg,
    truthyOpt, JsonValue.falsy, isStrOpt, strIncludes, strOf, hout, hp,
    MCPServer.dispatchCatch, ← String.append_assoc]

/-- Witness for C4 (amended): reading `/etc/passwd` with working
directory `/home/user/project` is denied whether or not the file
exists. -/
theorem read_outside_prefix_invalid_params_witness :
    MCPServer.callTool "file_operations"
        [("operation", .str "read"), ("path", .str "/etc/passwd")]
        ⟨"/home/user/project", ⟨[("/etc/passwd", "root:x:0:0")], []⟩,
         fun _ => 0, "t"⟩ =
      (.Failure .InvalidParams
        ("File operations error: " ++
          "Access denied. Path must be within allowed directories: " ++
          String.intercalate ", "
            (FileOpsTool.allowedDirectories "/home/user/project")),
       (⟨[("/etc/passwd", "root:x:0:0")], []⟩ : FS)) :=
  read_outside_prefix_invalid_params "/etc/passwd"
    ⟨"/home/user/project", ⟨[("/etc/passwd", "root:x:0:0")], []⟩,
     fun _ => 0, "t"⟩ (by rfl) (by decide)

/-- Counterexample to claim C4 as stated: `/tmpfile.txt` resolves to a
path that lies outside both allow-listed base directories in the
directory-containment sense (it is a sibling of `/tmp`, not under it),
yet the `read` call is not rejected with `InvalidParams` — it proceeds
and returns the file's content in a `Success` envelope, because
`validatePath` only tests for a plain string prefix. -/
theorem sibling_path_read_not_denied :
    isUnderDir "/tmp" (resolvePath "/home/user/project" "/tmpfile.txt") =
      false ∧
    isUnderDir "/home/user/project"
      (resolvePath "/home/user/project" "/tmpfile.txt") = false ∧
    (MCPServer.callTool "file_operations"
        [("operation", .str "read"), ("path", .str "/tmpfile.txt")]
        ⟨"/home/user/project", ⟨[("/tmpfile.txt", "secret")], []⟩,
         fun _ => 0, "t"⟩).1 =
      .Success (.fileOps
        { success := true, operation := "read", path := "/tmpfile.txt",
          data := some (.str "secret"),
          message := some "File read successfully" }) := by
  refine ⟨by rfl, by rfl, by rfl⟩

/-- Claim C5: `validatePath` accepts a path exactly when its resolved
form has the resolved form of some allow-listed directory as a plain
string prefix; in particular the sibling path `/tmp_sibling.txt` — under
no allow-listed directory in the containment sense — is accepted, and
the file operation proceeds on it (here reading its content) instead of
failing with access denied. -/
theorem validatePath_prefix_semantics :
    (∀ cwd p, (∃ rp, FileOpsTool.validatePath cwd p = .ok rp) ↔
      ∃ dir ∈ FileOpsTool.allowedDirectories cwd,
        strStartsWith (resolvePath cwd p) (resolvePath cwd dir) = true) ∧
    FileOpsTool.validatePath "/home/user/project" "/tmp_sibling.txt" =
      .ok "/tmp_sibling.txt" ∧
    isUnderDir "/tmp"
      (resolvePath "/home/user/project" "/tmp_sibling.txt") = false ∧
    isUnderDir "/home/user/project"
      (resolvePath "/home/user/project" "/tmp_sibling.txt") = false ∧
    (MCPServer.callTool "file_operations"
        [("operation", .str "read"), ("path", .str "/tmp_sibling.txt")]
        ⟨"/home/user/project", ⟨[("/tmp_sibling.txt", "outside data")], []⟩,
         fun _ => 0, "t"⟩).1 =
      .Success (.fileOps
        { success := true, operation := "read", path := "/tmp_sibling.txt",
          data := some (.str "outside data"),
          message := some "File read successfully" }) := by
  refine ⟨?_, by rfl, by rfl, by rfl, by rfl⟩
  intro cwd p
  unfold FileOpsTool.validatePath
  constructor
  · intro ⟨rp, hrp⟩
    by_cases hc : ((FileOpsTool.allowedDirectories cwd).any fun dir =>
        strStartsWith (resolvePath cwd p) (resolvePath cwd dir)) = true
    · rcases List.any_eq_true.mp hc with ⟨dir, hmem, hpre⟩
      exact ⟨dir, hmem, hpre⟩
    · simp [hc] at hrp
  · intro ⟨dir, hmem, hpre⟩
    have hc : ((FileOpsTool.allowedDirectories cwd).any fun dir =>
        strStartsWith (resolvePath cwd p) (resolvePath cwd dir)) = true :=
      List.any_eq_true.mpr ⟨dir, hmem, hpre⟩
    exact ⟨resolvePath cwd p, by simp [hc]⟩

/-- Removing every binding of a key from a path map makes lookup of that
key fail. -/
theorem lookupStr_filter_ne (l : List (String × String)) (k : String) :
    lookupStr (l.filter fun e => decide (e.1 ≠ k)) k = none := by
  induction l with
  | nil => rfl
  | cons e t ih =>
    by_cases h : e.1 = k
    · simpa [List.filter_cons, h] using ih
    · simpa [List.filter_cons, h, lookupStr] using ih

/-- Claim C8: on an allow-listed path, a `write` of content `c` followed
by a `read` returns exactly `c`, and a `delete` followed by an `exists`
check reports that the file does not exist. -/
theorem write_read_roundtrip_delete_exists (p c : String) (env : Env)
    (hp : p ≠ "")
    (hallow : ((FileOpsTool.allowedDirectories env.cwd).any fun dir =>
      strStartsWith (resolvePath env.cwd p) (resolvePath env.cwd dir)) = true)
    (hfault : lookupStr env.fs.readFaults (resolvePath env.cwd p) = none) :
    ((MCPServer.callTool "file_operations"
        [("operation", .str "write"), ("path", .str p),
         ("content", .str c)] env).1 =
      .Success (.fileOps
        { success := true, operation := "write",
          path := resolvePath env.cwd p, data := none,
          message := some "File written successfully" }) ∧
     (MCPServer.callTool "file_operations"
        [("operation", .str "read"), ("path", .str p)]
        { env with fs := (MCPServer.callTool "file_operations"
            [("operation", .str "write"), ("path", .str p),
             ("content", .str c)] env).2 }).1 =
      .Success (.fileOps
        { success := true, operation := "read",
          path := resolvePath env.cwd p, data := some (.str c),
          message := some "File read successfully" })) ∧
    (MCPServer.callTool "file_operations"
        [("operation", .str "exists"), ("path", .str p)]
        { env with fs := (MCPServer.callTool "file_operations"
            [("operation", .str "delete"), ("path", .str p)] env).2 }).1 =
      .Success (.fileOps
        { success := true, operation := "exists",
          path := resolvePath env.cwd p,
          data := some (.str "File does not exist"),
          message := some "File does not exist" }) := by
  have hwrite : MCPServer.callTool "file_operations"
      [("operation", .str "write"), ("path", .str p),
       ("content", .str c)] env =
      (.Success (.fileOps
        { success := true, operation := "write",
          path := resolvePath env.cwd p, data := none,
          message := some "File written successfully" }),
       FileOpsTool.writeFile env.fs (resolvePath env.cwd p) c) := by
    unfold MCPServer.callTool MCPServer.handleFileOps
    simp [FileOpsTool.performOperation, FileOpsTool.validateInput,
      FileOpsTool.validatePath, FileOpsTool.validOperations, lookupArg,
      truthyOpt, JsonValue.falsy, isStrOpt, strIncludes, strOf, hallow, hp,
      MCPServer.dispatchCatch]
  refine ⟨⟨?_, ?_⟩, ?_⟩
  · rw [hwrite]
  · rw [hwrite]
    unfold MCPServer.callTool MCPServer.handleFileOps
    simp [FileOpsTool.performOperation, FileOpsTool.validateInput,
      FileOpsTool.validatePath, FileOpsTool.validOperations,
      FileOpsTool.readFile, FileOpsTool.writeFile, lookupArg, lookupStr,
      truthyOpt, JsonValue.falsy, isStrOpt, strIncludes, strOf, hallow, hp,
      hfault, MCPServer.dispatchCatch]
  · by_cases hd : (lookupStr env.fs.files (resolvePath env.cwd p)).isSome
    · have hdel : MCPServer.callTool "file_operations"
          [("operation", .str "delete"), ("path", .str p)] env =
          (.Success (.fileOps
            { success := true, operation := "delete",
              path := resolvePath env.cwd p, data := none,
              message := some "File deleted successfully" }),
           { env.fs with
             files := env.fs.files.filter
               fun e => decide (e.1 ≠ resolvePath env.cwd p) }) := by
        unfold MCPServer.callTool MCPServer.handleFileOps
        simp [FileOpsTool.performOperation, FileOpsTool.validateInput,
          FileOpsTool.validatePath, FileOpsTool.validOperations,
          FileOpsTool.deleteFile, lookupArg, truthyOpt, JsonValue.falsy,
          isStrOpt, strIncludes, strOf, hallow, hp, hd,
          MCPServer.dispatchCatch]
      rw [hdel]
      unfold MCPServer.callTool MCPServer.handleFileOps
      simp [FileOpsTool.performOperation, FileOpsTool.validateInput,
        FileOpsTool.validatePath, FileOpsTool.validOperations,
        FileOpsTool.fileExists, lookupArg, truthyOpt, JsonValue.falsy,
        isStrOpt, strIncludes, strOf, hallow, hp,
        MCPServer.dispatchCatch]
      simpa using lookupStr_filter_ne env.fs.files (resolvePath env.cwd p)
    · have hdel : MCPServer.callTool "file_operations"
          [("operation", .str "delete"), ("path", .str p)] env =
          (.Success (.fileOps
            { success := false, operation := "delete",
              path := resolvePath env.cwd p, data := none,
              message := some ("File not found: " ++
                resolvePath env.cwd p) }),
           env.fs) := by
        unfold MCPServer.callTool MCPServer.handleFileOps
        simp [FileOpsTool.performOperation, FileOpsTool.validateInput,
          FileOpsTool.validatePath, FileOpsTool.validOperations,
          FileOpsTool.deleteFile, lookupArg, truthyOpt, JsonValue.falsy,
          isStrOpt, strIncludes, strOf, hallow, hp, hd,
          MCPServer.dispatchCatch]
      rw [hdel]
      unfold MCPServer.callTool MCPServer.handleFileOps
      simp [FileOpsTool.performOperation, FileOpsTool.validateInput,
        FileOpsTool.validatePath, FileOpsTool.validOperations,
        FileOpsTool.fileExists, lookupArg, truthyOpt, JsonValue.falsy,
        isStrOpt, strIncludes, strOf, hallow, hp, hd,
        MCPServer.dispatchCatch]

/-- Witness for C8: the round trip and delete-then-exists on
`/tmp/f.txt`. -/
theorem write_read_roundtrip_delete_exists_witness :
    ((MCPServer.callTool "file_operations"
        [("operation", .str "write"), ("path", .str "/tmp/f.txt"),
         ("content", .str "hello")]
        ⟨"/app", ⟨[], []⟩, fun _ => 0, "t"⟩).1 =
      .Success (.fileOps
        { success := true, operation := "write",
          path := resolvePath "/app" "/tmp/f.txt", data := none,
          message := some "File written successfully" }) ∧
     (MCPServer.callTool "file_operations"
        [("operation", .str "read"), ("path", .str "/tmp/f.txt")]
        { (⟨"/app", ⟨[], []⟩, fun _ => 0, "t"⟩ : Env) with
          fs := (MCPServer.callTool "file_operations"
            [("operation", .str "write"), ("path", .str "/tmp/f.txt"),
             ("content", .str "hello")]
            ⟨"/app", ⟨[], []⟩, fun _ => 0, "t"⟩).2 }).1 =
      .Success (.fileOps
        { success := true, operation := "read",
          path := resolvePath "/app" "/tmp/f.txt",
          data := some (.str "hello"),
          message := some "File read successfully" })) ∧
    (MCPServer.callTool "file_operations"
        [("operation", .str "exists"), ("path", .str "/tmp/f.txt")]
        { (⟨"/app", ⟨[], []⟩, fun _ => 0, "t"⟩ : Env) with
          fs := (MCPServer.callTool "file_operations"
            [("operation", .str "delete"), ("path", .str "/tmp/f.txt")]
            ⟨"/app", ⟨[], []⟩, fun _ => 0, "t"⟩).2 }).1 =
      .Success (.fileOps
        { success := true, operation := "exists",
          path := resolvePath "/app" "/tmp/f.txt",
          data := some (.str "File does not exist"),
          message := some "File does not exist" }) :=
  write_read_roundtrip_delete_exists "/tmp/f.txt" "hello"
    ⟨"/app", ⟨[], []⟩, fun _ => 0, "t"⟩ (by decide) (by rfl) rfl

/-- Claim C10: for a location that is a string and non-empty after
trimming, with units absent or one of the two enum values, `getWeather`
succeeds for every random stream and timestamp, echoes the location,
maps units to `Celsius` (absent or `celsius`) or `Fahrenheit`
(`fahrenheit`), and produces a seven-entry forecast whose days are
Monday through Sunday in order. -/
theorem weather_valid_input_shape (args : Args) (rng : ℕ → ℚ)
    (now s : String)
    (hloc : lookupArg args "location" = some (.str s))
    (htrim : jsTrim s ≠ "")
    (hunits : lookupArg args "units" = none ∨
      lookupArg args "units" = some (.str "celsius") ∨
      lookupArg args "units" = some (.str "fahrenheit")) :
    ∃ o, WeatherTool.getWeather args rng now = .ok o ∧
      o.location = s ∧
      (o.units = if lookupArg args "units" = some (.str "fahrenheit")
        then "Fahrenheit" else "Celsius") ∧
      o.forecast.map ForecastEntry.day = WeatherTool.days ∧
      o.forecast.length = 7 := by
  have hs : s ≠ "" := by
    intro h
    subst h
    exact htrim rfl
  rcases hunits with hu | hu | hu <;>
    refine ⟨WeatherTool.generateWeatherData s
        (jsOrDefault (lookupArg args "units") (.str "celsius")) rng now,
      ?_, rfl, ?_, rfl, rfl⟩ <;>
    simp [WeatherTool.getWeather, WeatherTool.validateInput, hloc, hu, hs,
      htrim, truthyOpt, JsonValue.falsy, isStrOpt, strOf, strIncludes,
      jsOrDefault, WeatherTool.generateWeatherData]

/-- Witness for C10: a concrete valid weather call. -/
theorem weather_valid_input_shape_witness :
    ∃ o, WeatherTool.getWeather [("location", .str "Paris")]
        (fun _ => 0) "2024-01-01T00:00:00Z" = .ok o ∧
      o.location = "Paris" ∧
      (o.units = if lookupArg [("location", .str "Paris")] "units" =
          some (.str "fahrenheit") then "Fahrenheit" else "Celsius") ∧
      o.forecast.map ForecastEntry.day = WeatherTool.days ∧
      o.forecast.length = 7 :=
  weather_valid_input_shape [("location", .str "Paris")] (fun _ => 0)
    "2024-01-01T00:00:00Z" "Paris" rfl (by decide) (Or.inl rfl)

/-- JavaScript `typeof v === "number"` (NaN is of type number). -/
def isJsNumber (v : Option JsonValue) : Bool :=
  match v with
  | some (.num _) => true
  | some .nan => true
  | _ => false

/-- Stage of a validation violation in the spec's taxonomy. -/
inductive ViolationStage where
  | presence
  | typing
  | enumMembership
  | semantic
deriving DecidableEq

/-- Modelled from the spec: the validation procedure the claim states —
presence of all required fields in declared field order, then type of
each present field in declared order, then enum membership, then
tool-specific semantic constraints, stopping at the first violation —
instantiated at the calculator's schema (declared fields `operation`,
`a`, `b`; required `operation`, `a`).  Returns the violating field and
stage of the first violation; to be compared with the order
`CalculatorTool.validateInput` actually checks. -/
def claimedCalculatorFirstViolation (args : Args) :
    Option (String × ViolationStage) :=
  if lookupArg args "operation" = none then some ("operation", .presence)
  else if lookupArg args "a" = none then some ("a", .presence)
  else if !isStrOpt (lookupArg args "operation") then
    some ("operation", .typing)
  else if !isJsNumber (lookupArg args "a") then some ("a", .typing)
  else if lookupArg args "b" ≠ none ∧ !isJsNumber (lookupArg args "b") then
    some ("b", .typing)
  else if !strIncludes CalculatorTool.validOperations
      (lookupArg args "operation") then
    some ("operation", .enumMembership)
  else if lookupArg args "operation" = some (.str "divide") ∧
      lookupArg args "b" = some (.num 0) then
    some ("b", .semantic)
  else if lookupArg args "operation" = some (.str "sqrt") ∧
      ratOf (lookupArg args "a") < 0 then
    some ("a", .semantic)
  else none

/-- Counterexample to claim C7 as stated: on input
`{operation: "bogus"}` — enum violation on `operation` and missing
required field `a` simultaneously — the checking order the claim
describes reports the presence violation on `a` first, but the code
reports the enum violation on `operation`, because
`CalculatorTool.validateInput` checks the operation's enum membership
before ever looking at `a`. -/
theorem validation_order_counterexample :
    CalculatorTool.validateInput [("operation", .str "bogus")] =
      .error ("Invalid operation. Must be one of: " ++
        "add, subtract, multiply, divide, power, sqrt") ∧
    claimedCalculatorFirstViolation [("operation", .str "bogus")] =
      some ("a", .presence) := by
  exact ⟨rfl, rfl⟩

/-- Stop-at-first-violation runner: the result of a validator that
applies an ordered list of checks and throws the message of the first
one that fails. -/
def firstFailure : List (Args → Option String) → Args → Except String Unit
  | [], _ => .ok ()
  | c :: cs, args =>
    match c args with
    | some m => .error m
    | none => firstFailure cs args

/-- The calculator's checks in the order the source performs them:
operation truthiness, operation enum membership, `a` numeric,
`b` present-and-numeric for non-sqrt, division by zero, negative
radicand. -/
def CalculatorTool.orderedChecks : List (Args → Option String) :=
  [fun args =>
    if !truthyOpt (lookupArg args "operation") then
      some "Operation is required"
    else none,
   fun args =>
    if !strIncludes CalculatorTool.validOperations
        (lookupArg args "operation") then
      some ("Invalid operation. Must be one of: " ++
        String.intercalate ", " CalculatorTool.validOperations)
    else none,
   fun args =>
    if !isValidNumber (lookupArg args "a") then
      some "Parameter \"a\" must be a valid number"
    else none,
   fun args =>
    if lookupArg args "operation" ≠ some (.str "sqrt") ∧
        !isValidNumber (lookupArg args "b") then
      some ("Parameter \"b\" is required for " ++
        (((lookupArg args "operation").getD .null).render) ++ " operation")
    else none,
   fun args =>
    if lookupArg args "operation" = some (.str "divide") ∧
        lookupArg args "b" = some (.num 0) then
      some "Division by zero is not allowed"
    else none,
   fun args =>
    if lookupArg args "operation" = some (.str "sqrt") ∧
        ratOf (lookupArg args "a") < 0 then
      some "Cannot calculate square root of negative number"
    else none]

/-- The file-operations checks in the order the source performs them:
operation truthiness, operation enum membership, path truthy string,
content present for write. -/
def FileOpsTool.orderedChecks : List (Args → Option String) :=
  [fun args =>
    if !truthyOpt (lookupArg args "operation") then
      some "Operation is required"
    else none,
   fun args =>
    if !strIncludes FileOpsTool.validOperations
        (lookupArg args "operation") then
      some ("Invalid operation. Must be one of: " ++
        String.intercalate ", " FileOpsTool.validOperations)
    else none,
   fun args =>
    if !truthyOpt (lookupArg args "path") ∨
        !isStrOpt (lookupArg args "path") then
      some "Path is required and must be a string"
    else none,
   fun args =>
    if lookupArg args "operation" = some (.str "write") ∧
        lookupArg args "content" = none then
      some "Content is required for write operation"
    else none]

/-- The weather checks in the order the source performs them: location
truthy string, location non-blank, units enum when truthy. -/
def WeatherTool.orderedChecks : List (Args → Option String) :=
  [fun args =>
    if !truthyOpt (lookupArg args "location") ∨
        !isStrOpt (lookupArg args "location") then
      some "Location is required and must be a string"
    else none,
   fun args =>
    if jsTrim (strOf (lookupArg args "location")) = "" then
      some "Location cannot be empty"
    else none,
   fun args =>
    if truthyOpt (lookupArg args "units") ∧
        !strIncludes ["celsius", "fahrenheit"] (lookupArg args "units") then
      some "Units must be either \"celsius\" or \"fahrenheit\""
    else none]

/-- Claim C7 (amended): each validator reports exactly one violation —
the first failing check in its own source order, which checks the
operation's (or location's) truthiness, then its enum membership, and
only then the presence and type of the remaining declared fields
(merged into a single check per field), then semantic constraints; so
when a missing required field coexists with an earlier field's enum or
type violation, the earlier field's violation is the one reported, not
the presence violation the declared-field-order rule would pick. -/
theorem validation_first_violation_code_order :
    (∀ args, CalculatorTool.validateInput args =
      firstFailure CalculatorTool.orderedChecks args) ∧
    (∀ args, FileOpsTool.validateInput args =
      firstFailure FileOpsTool.orderedChecks args) ∧
    (∀ args, WeatherTool.validateInput args =
      firstFailure WeatherTool.orderedChecks args) := by
  refine ⟨fun args => ?_, fun args => ?_, fun args => ?_⟩ <;>
    simp only [CalculatorTool.validateInput, CalculatorTool.orderedChecks,
      FileOpsTool.validateInput, FileOpsTool.orderedChecks,
      WeatherTool.validateInput, WeatherTool.orderedChecks,
      firstFailure] <;>
    split_ifs <;> simp_all
